import Mathlib

/-!
Verification development for the asynchronous getaddrinfo resolver
(`contrib/lib/libc/asr/getaddrinfo_async.c`).

The C file is shallowly embedded below.  Pure helpers become Lean
functions; the resumable state machine `getaddrinfo_async_run` becomes an
explicit `step` function over an `Async` state record, iterated by
`runSteps`.  External collaborators that the design treats as out of
scope (string-to-address parsing, service lookup, the DNS sub-query
primitive, file/NIS line tokenization, resolver configuration) are
supplied through an `Env` record of oracles.  Memory allocation is
modelled as always succeeding: the `EAI_MEMORY` abort paths exist in the
C only as reactions to failed `calloc`/`strdup`, which a shallow
embedding has no counterpart for.
-/

namespace Asr

/-! ### Constants (OpenBSD numeric values) -/

def PF_UNSPEC : Int := 0
def PF_INET : Int := 2
def PF_INET6 : Int := 24
def AF_UNSPEC : Int := PF_UNSPEC
def AF_INET : Int := PF_INET
def AF_INET6 : Int := PF_INET6

def SOCK_STREAM : Int := 1
def SOCK_DGRAM : Int := 2
def SOCK_RAW : Int := 3

def IPPROTO_TCP : Int := 6
def IPPROTO_UDP : Int := 17

def T_A : Int := 1
def T_AAAA : Int := 28
def C_IN : Int := 1

def EAI_NONAME : Int := -1
def EAI_BADFLAGS : Int := -2
def EAI_AGAIN : Int := -3
def EAI_FAIL : Int := -4
def EAI_NODATA : Int := -5
def EAI_FAMILY : Int := -6
def EAI_SOCKTYPE : Int := -7
def EAI_SERVICE : Int := -8
def EAI_MEMORY : Int := -10
def EAI_SYSTEM : Int := -11
def EAI_BADHINTS : Int := -12

/-- The `ai_flags` bits recognized by the resolver (`AI_MASK` bits).
`unknownBits` stands for `ai_flags & ~AI_MASK != 0`, i.e. the presence of
any flag bit outside the recognized mask. -/
structure AiFlags where
  passive : Bool := false        -- AI_PASSIVE
  canonname : Bool := false      -- AI_CANONNAME
  numerichost : Bool := false    -- AI_NUMERICHOST
  numericserv : Bool := false    -- AI_NUMERICSERV
  fqdn : Bool := false           -- AI_FQDN
  addrconfig : Bool := false     -- AI_ADDRCONFIG
  unknownBits : Bool := false    -- ai_flags & ~AI_MASK
deriving Repr, DecidableEq

/-- The caller-supplied hints (`struct addrinfo` used as hints: only the
family/socktype/protocol/flags fields participate in resolution). -/
structure Hints where
  ai_flags : AiFlags := {}
  ai_family : Int := PF_UNSPEC
  ai_socktype : Int := 0
  ai_protocol : Int := 0
deriving Repr, DecidableEq

/-- A socket address (`struct sockaddr_in` / `sockaddr_in6` union): the
family, the port in host representation, and the raw address bytes. -/
structure Sockaddr where
  sa_family : Int
  sin_port : Int := 0
  addr : List Nat := []
deriving Repr, DecidableEq

/-- One output `struct addrinfo` entry built by `addrinfo_add`. -/
structure AddrinfoEnt where
  ai_family : Int
  ai_socktype : Int
  ai_protocol : Int
  ai_addr : Sockaddr
  ai_canonname : Option String
deriving Repr, DecidableEq

/-- The states of `getaddrinfo_async_run`'s dispatch switch. -/
inductive AsrState where
  | INIT | NEXT_DB | NEXT_FAMILY | SAME_DB | SUBQUERY | NOT_FOUND | HALT
deriving Repr, DecidableEq

/-- One resolution source (`ASR_DB_FILE` / `ASR_DB_DNS` / `ASR_DB_YP`). -/
inductive DbKind where
  | file | dns | yp
deriving Repr, DecidableEq

/-- A decoded DNS question (`struct query`), with the queried name in the
dotted textual form produced by `asr_strdname` (trailing root dot kept). -/
structure DnsQuery where
  q_type : Int
  q_class : Int
  q_dname : String
deriving Repr, DecidableEq

/-- A decoded DNS resource record (`struct rr`); `rr_addr` holds the A or
AAAA payload bytes, `rr_dname` the owner name in dotted textual form. -/
structure DnsRR where
  rr_type : Int
  rr_class : Int
  rr_dname : String
  rr_addr : List Nat
deriving Repr, DecidableEq

/-- A decoded DNS response: the question section and the answer records,
already token-decoded by the external wire-format readers
(`unpack_header`/`unpack_query`/`unpack_rr` are out of scope). -/
structure Pkt where
  qd : List DnsQuery
  an : List DnsRR
deriving Repr, DecidableEq

/-- The in-flight request (`struct async` restricted to the fields that
`getaddrinfo_async_run` uses). `ais` is the `aifirst`/`ailast` list,
`count` is `as_count`, `again` is the `ASYNC_AGAIN` bit of `as.ai.flags`,
`subq` records the outstanding sub-query's name and type. -/
structure Async where
  state : AsrState
  hostname : Option String
  servname : Option String
  hints : Hints
  port_tcp : Int := 0
  port_udp : Int := 0
  fqdn : Option String := none
  ais : List AddrinfoEnt := []
  count : Nat := 0
  family_idx : Nat := 0
  db_idx : Nat := 0
  again : Bool := false
  subq : Option (String × Int) := none
deriving Repr, DecidableEq

/-- The result record (`struct async_res` restricted to the getaddrinfo
fields). -/
structure AsyncRes where
  gai_errno : Int := 0
  ar_count : Nat := 0
  ar_addrinfo : List AddrinfoEnt := []
deriving Repr, DecidableEq

/-- The environment: configuration plus the external collaborators the
design treats as out of scope.
* `parse` is `sockaddr_from_str` (string-to-address parsing),
* `parseNum` is the numeric core of `strtonum` (`some n` iff the string
  is a well-formed integer, whatever its range),
* `servByName` is `getservbyname` (already byte-swapped),
* `famList` is the resolver context's `ac_family` preference list
  (without its `-1` terminator),
* `dbs` is the configured source order walked by `asr_iter_db`,
* `hostfile` is the hosts database: `none` when `fopen` fails, otherwise
  the token lists yielded by `asr_parse_namedb_line` (tokenization is an
  external utility; it never yields an empty token list),
* `dnsSubmitENOMEM` reports a `res_query_async_ctx`/`res_search_async_ctx`
  submission failure (`some b`, with `b` true iff `errno == ENOMEM`),
* `dnsAnswer` is the completed sub-query's decoded response (`none` for
  `ar_datalen == -1`); the sub-query is modelled as completing on its
  first resumption, which preserves the orchestration between suspend
  points,
* `ypDomain`/`ypMatch` are `_yp_check` and `yp_match` with the returned
  lines already split by the external `strsplit`. -/
structure Env where
  parse : Int → String → Option Sockaddr
  parseNum : String → Option Int
  servByName : String → String → Option Int
  famList : List Int
  dbs : List DbKind
  hostfile : Option (List (List String))
  dnsSubmitENOMEM : String → Int → Option Bool
  dnsAnswer : String → Int → Option Pkt
  ypDomain : Bool
  ypMatch : String → String → Option (List (List String))

/-! ### The compatibility table and its matching macros -/

structure MatchRow where
  family : Int
  socktype : Int
  protocol : Int
deriving Repr, DecidableEq

/-- The static `matches[]` table of the C file (without its `-1` terminator row). -/
def matchesTab : List MatchRow :=
  [ { family := PF_INET, socktype := SOCK_DGRAM, protocol := IPPROTO_UDP },
    { family := PF_INET, socktype := SOCK_STREAM, protocol := IPPROTO_TCP },
    { family := PF_INET, socktype := SOCK_RAW, protocol := 0 },
    { family := PF_INET6, socktype := SOCK_DGRAM, protocol := IPPROTO_UDP },
    { family := PF_INET6, socktype := SOCK_STREAM, protocol := IPPROTO_TCP },
    { family := PF_INET6, socktype := SOCK_RAW, protocol := 0 } ]

/-- `matches[i]` (reads past the table never occur in the embedded code). -/
def matchAt (i : Nat) : MatchRow := matchesTab.getD i { family := -1, socktype := 0, protocol := 0 }

/-- `MATCH_FAMILY(a, b)`. -/
def MATCH_FAMILY (a : Int) (i : Nat) : Bool :=
  a == (matchAt i).family || a == PF_UNSPEC

/-- `MATCH_PROTO(a, b)`: an explicit protocol hint also accepts table rows
whose protocol is 0 (the RAW rows). -/
def MATCH_PROTO (a : Int) (i : Nat) : Bool :=
  a == (matchAt i).protocol || a == 0 || (matchAt i).protocol == 0

/-- `MATCH_SOCKTYPE(a, b)`: a wildcard socket-type hint never matches
`SOCK_RAW`. -/
def MATCH_SOCKTYPE (a : Int) (i : Nat) : Bool :=
  a == (matchAt i).socktype || (a == 0 && (matchAt i).socktype != SOCK_RAW)

/-! ### The address-list builder `addrinfo_add` -/

/-- Write the resolved port into the copied sockaddr (`sin_port`/`sin6_port`
assignment at the end of `addrinfo_add`'s loop body). -/
def setPort (sa : Sockaddr) (port : Int) : Sockaddr :=
  if sa.sa_family == PF_INET || sa.sa_family == PF_INET6 then
    { sa with sin_port := port }
  else sa

/-- The entry `addrinfo_add` builds for table row `i`, or `none` when the
row is skipped (family mismatch, incompatible socktype/protocol, or a
service name that is not defined for the row's protocol). -/
def addrinfo_entry (h : Hints) (ptcp pudp : Int) (sa : Sockaddr) (cname : Option String)
    (i : Nat) : Option AddrinfoEnt :=
  if (matchAt i).family != sa.sa_family ||
     !(MATCH_SOCKTYPE h.ai_socktype i) ||
     !(MATCH_PROTO h.ai_protocol i) then
    none
  else
    let proto := if h.ai_protocol != 0 then h.ai_protocol else (matchAt i).protocol
    let port : Int :=
      if proto == IPPROTO_TCP then ptcp
      else if proto == IPPROTO_UDP then pudp
      else 0
    if port == -1 then
      none
    else
      some { ai_family := sa.sa_family
             ai_socktype := (matchAt i).socktype
             ai_protocol := proto
             ai_addr := setPort sa port
             ai_canonname :=
               if cname.isSome && (h.ai_flags.canonname || h.ai_flags.fqdn) then cname
               else none }

/-- `addrinfo_add`: extend the result list with one entry per compatible
table row, incrementing `as_count` per appended entry.  Allocation is
modelled as always succeeding (the C returns `EAI_MEMORY` only on a
failed `calloc`/`strdup`). -/
def addrinfo_add (as : Async) (sa : Sockaddr) (cname : Option String) : Async :=
  (List.range matchesTab.length).foldl
    (fun a i =>
      match addrinfo_entry as.hints as.port_tcp as.port_udp sa cname i with
      | none => a
      | some e => { a with ais := a.ais ++ [e], count := a.count + 1 })
    as

/-- The list of entries `addrinfo_add` appends for one discovered address. -/
def addrinfo_entries (h : Hints) (ptcp pudp : Int) (sa : Sockaddr)
    (cname : Option String) : List AddrinfoEnt :=
  (List.range matchesTab.length).filterMap (addrinfo_entry h ptcp pudp sa cname)

/-! ### `get_port` -/

/-- `get_port(servname, proto, numonly)`: resolve a service name to a port
number; `0` for a null service name, `-2` for an out-of-range number or a
non-numeric name under `AI_NUMERICSERV`, `-1` when `getservbyname` does
not know the name for this protocol. -/
def get_port (env : Env) (servname : Option String) (proto : String) (numonly : Bool) : Int :=
  match servname with
  | none => 0
  | some s =>
    match env.parseNum s with
    | some n => if 0 ≤ n && n ≤ 65535 then n else -2
    | none =>
      if numonly then -2
      else
        match env.servByName s proto with
        | some port => port
        | none => -1

/-! ### Family iteration -/

/-- `AS_FAMILY(as)`: the `ac_family` configuration array indexed by the
family cursor; the array is `-1`-terminated, hence the default. -/
def AS_FAMILY (env : Env) (as : Async) : Int :=
  env.famList.getD as.family_idx (-1)

/-- `iter_family(as, first)`: produce the next family to try, `-1` on
exhaustion.  A family pinned by the hints is yielded once. -/
def iter_family (env : Env) (as : Async) (first : Bool) : Int × Async :=
  if first then
    let as := { as with family_idx := 0 }
    if as.hints.ai_family != PF_UNSPEC then (as.hints.ai_family, as)
    else (AS_FAMILY env as, as)
  else if as.hints.ai_family != PF_UNSPEC then (-1, as)
  else
    let as := { as with family_idx := as.family_idx + 1 }
    (AS_FAMILY env as, as)

/-- Driver for the two `for (family = iter_family(as, 1); family != -1;
family = iter_family(as, 0))` loops in the `INIT` state.  `body` returns
the updated request and whether the loop `break`s.  The loop terminates
because the family cursor is strictly increasing; fuel larger than the
configured family list makes the cutoff unreachable. -/
def famLoopGo (env : Env) (body : Int → Async → Async × Bool) :
    Nat → Int → Async → Async
  | 0, _, as => as
  | fuel+1, family, as =>
    if family == -1 then as
    else
      let r := body family as
      if r.2 then r.1
      else
        let p := iter_family env r.1 false
        famLoopGo env body fuel p.1 p.2

/-- Entry point of a family loop: first `iter_family(as, 1)`, then iterate. -/
def famLoopStart (env : Env) (body : Int → Async → Async × Bool) (as : Async) : Async :=
  let p := iter_family env as true
  famLoopGo env body (env.famList.length + 2) p.1 p.2

/-- The literal the hostname-is-null branch feeds to `sockaddr_from_str`
for a family: the wildcard address under `AI_PASSIVE`, else loopback. -/
def localLiteral (family : Int) (passive : Bool) : String :=
  if family == PF_INET then (if passive then "0.0.0.0" else "127.0.0.1")
  else (if passive then "::" else "::1")

/-- Body of the hostname-is-null loop: synthesize the local address for
this family and feed it through the builder.  The C ignores the parser's
return value here ("This can't fail"); on the impossible failure the model
leaves the request unchanged instead of reading an indeterminate stack
value. -/
def localBody (env : Env) : Int → Async → Async × Bool := fun family as =>
  match env.parse family (localLiteral family as.hints.ai_flags.passive) with
  | some sa => (addrinfo_add as sa none, false)
  | none => (as, false)

/-- Body of the numeric-literal loop: on the first family whose parser
accepts the hostname, feed the literal through the builder and `break`. -/
def numericBody (env : Env) (host : String) : Int → Async → Async × Bool := fun family as =>
  match env.parse family host with
  | none => (as, false)
  | some sa => (addrinfo_add as sa none, true)

/-! ### The `INIT` state -/

/-- The early validation checks of the `INIT` state, in source order,
returning the first failing check's error.  (The `#ifdef EAI_BADHINTS`
check on the pointer fields of the hints is not modelled: those fields do
not participate in resolution.) -/
def initChecks (as : Async) : Option Int :=
  if as.hostname.isNone && as.servname.isNone then
    some EAI_NONAME
  else if as.hints.ai_flags.unknownBits ||
          (as.hints.ai_flags.canonname && as.hints.ai_flags.fqdn) then
    some EAI_BADFLAGS
  else if as.hints.ai_family != PF_UNSPEC && as.hints.ai_family != PF_INET &&
          as.hints.ai_family != PF_INET6 then
    some EAI_FAMILY
  else if as.hints.ai_socktype != 0 && as.hints.ai_socktype != SOCK_DGRAM &&
          as.hints.ai_socktype != SOCK_STREAM && as.hints.ai_socktype != SOCK_RAW then
    some EAI_SOCKTYPE
  else if as.hints.ai_socktype == SOCK_RAW && !as.servname.isNone then
    some EAI_SERVICE
  else if !((List.range matchesTab.length).any fun i =>
              MATCH_FAMILY as.hints.ai_family i &&
              MATCH_SOCKTYPE as.hints.ai_socktype i &&
              MATCH_PROTO as.hints.ai_protocol i) then
    some EAI_BADHINTS
  else
    none

/-- The two conditional `get_port` resolutions of the `INIT` state. -/
def initPorts (env : Env) (as : Async) : Async :=
  let as :=
    if as.hints.ai_protocol == 0 || as.hints.ai_protocol == IPPROTO_UDP then
      { as with port_udp := get_port env as.servname "udp" as.hints.ai_flags.numericserv }
    else as
  if as.hints.ai_protocol == 0 || as.hints.ai_protocol == IPPROTO_TCP then
    { as with port_tcp := get_port env as.servname "tcp" as.hints.ai_flags.numericserv }
  else as

/-- The post-resolution service check of the `INIT` state (`EAI_SERVICE`
when it holds). -/
def portInvalid (as : Async) : Bool :=
  as.port_tcp == -2 || as.port_udp == -2 ||
  (as.port_tcp == -1 && as.port_udp == -1) ||
  (as.hints.ai_protocol != 0 && (as.port_udp == -1 || as.port_tcp == -1))

/-- The `ASR_STATE_INIT` case of `getaddrinfo_async_run`. -/
def stepInit (env : Env) (as0 : Async) (ar : AsyncRes) : Async × AsyncRes :=
  let as := { as0 with count := 0 }
  match initChecks as with
  | some e => ({ as with state := .HALT }, { ar with gai_errno := e })
  | none =>
    let as := initPorts env as
    if portInvalid as then
      ({ as with state := .HALT }, { ar with gai_errno := EAI_SERVICE })
    else
      let ar := { ar with gai_errno := 0 }
      match as.hostname with
      | none =>
        -- hostname is NULL: synthesize local addresses and halt
        let as := famLoopStart env (localBody env) as
        let ar := if ar.gai_errno == 0 && as.count == 0 then
            { ar with gai_errno := EAI_NODATA }
          else ar
        ({ as with state := .HALT }, ar)
      | some host =>
        -- try numeric addresses first
        let as := famLoopStart env (numericBody env host) as
        if ar.gai_errno != 0 || as.count != 0 then
          ({ as with state := .HALT }, ar)
        else if as.hints.ai_flags.numerichost then
          ({ as with state := .HALT }, { ar with gai_errno := EAI_FAIL })
        else
          ({ as with state := .NEXT_DB }, ar)

/-! ### Backend iteration (not part of this source file)

`asr_iter_db` and the `AS_DB` accessor live in the resolver context code,
outside this file. -/

/-- Modelled from the spec: the Backend Selector, a "plain forward
iterator with no hidden retry — each call returns the next item or an
exhaustion marker" over the configured source order (`asr_iter_db`). -/
def asr_iter_db (env : Env) (as : Async) : Option Async :=
  if as.db_idx < env.dbs.length then some { as with db_idx := as.db_idx + 1 }
  else none

/-- Modelled from the spec: the current resolution source of the Backend
Selector (the `AS_DB` accessor); `none` when the cursor is out of range
(then the dispatch falls to its `default` arm). -/
def AS_DB (env : Env) (as : Async) : Option DbKind :=
  env.dbs[as.db_idx - 1]?

/-! ### Local-database and DNS extraction -/

/-- ASCII lower-casing of one character (the `tolower` used by
`strcasecmp`). -/
def charLower (c : Char) : Char :=
  if 65 ≤ c.toNat && c.toNat ≤ 90 then Char.ofNat (c.toNat + 32) else c

/-- Case-insensitive name comparison (`strcasecmp(...) == 0`). -/
def strcaseEq (a b : String) : Bool :=
  a.data.map charLower == b.data.map charLower

/-- The inner scan of one hosts-file line in `addrinfo_from_file`: find a
name token (index ≥ 1) equal to the query hostname whose line address
token parses in the target family.  The parser's outcome depends only on
the address token, so the scan succeeds exactly when some name token
matches and the address token parses. -/
def fileFind (env : Env) (host : String) (family : Int) (tokens : List String) :
    Option Sockaddr :=
  if (tokens.drop 1).any (fun t => strcaseEq host t) then
    env.parse family (tokens.getD 0 "")
  else none

/-- One line of `addrinfo_from_file`'s scan loop. -/
def fileLine (env : Env) (as : Async) (family : Int) (tokens : List String) : Async :=
  match fileFind env (as.hostname.getD "") family tokens with
  | none => as
  | some sa =>
    let c : Option String :=
      if as.hints.ai_flags.canonname || as.hints.ai_flags.fqdn then
        some (tokens.getD 1 "")
      else none
    addrinfo_add as sa c

/-- `addrinfo_from_file`: scan the already-tokenized lines of the hosts
database for the target family (`asr_parse_namedb_line`, the external
tokenizer, never yields an empty token list). -/
def addrinfo_from_file (env : Env) (as : Async) (family : Int)
    (lines : List (List String)) : Async :=
  lines.foldl (fun a tokens => fileLine env a family tokens) as

/-- Strip the trailing root dot from a dotted name (the C overwrites the
final byte of the decoded name with NUL, dropping the last character). -/
def stripDot (s : String) : String := s.dropRight 1

/-- The per-record canonical name of `addrinfo_from_pkt`: the record owner
name under `AI_CANONNAME`, the learned fqdn under `AI_FQDN`, else none. -/
def pktCname (as : Async) (rr : DnsRR) : Option String :=
  if as.hints.ai_flags.canonname then some (stripDot rr.rr_dname)
  else if as.hints.ai_flags.fqdn then as.fqdn
  else none

/-- One answer record of `addrinfo_from_pkt`'s loop: skip records not
matching the question, learn the fqdn from the queried name on the first
matching record, then build a family-correct zero-port address for A/AAAA
records and feed it to the builder. -/
def pktRecord (as : Async) (q : DnsQuery) (rr : DnsRR) : Async :=
  if rr.rr_type != q.q_type || rr.rr_class != q.q_class then as
  else
    let as :=
      if as.fqdn.isNone then { as with fqdn := some (stripDot q.q_dname) } else as
    if rr.rr_type == T_A then
      addrinfo_add as { sa_family := AF_INET, sin_port := 0, addr := rr.rr_addr } (pktCname as rr)
    else if rr.rr_type == T_AAAA then
      addrinfo_add as { sa_family := AF_INET6, sin_port := 0, addr := rr.rr_addr } (pktCname as rr)
    else as

/-- `addrinfo_from_pkt`: walk a decoded response's answer records (the C
keeps the last decoded question; an absent question section would leave
it indeterminate, so a default is supplied). -/
def addrinfo_from_pkt (as : Async) (pkt : Pkt) : Async :=
  let q := pkt.qd.getLastD { q_type := 0, q_class := 0, q_dname := "" }
  pkt.an.foldl (fun a rr => pktRecord a q rr) as

/-- One already-split line of `addrinfo_from_yp`'s loop. -/
def ypLine (env : Env) (as : Async) (family : Int) (tokens : List String) : Async :=
  if tokens.length < 2 then as
  else
    match env.parse family (tokens.getD 0 "") with
    | none => as
    | some sa =>
      let c : Option String :=
        if as.hints.ai_flags.canonname || as.hints.ai_flags.fqdn then
          some (tokens.getD 1 "")
        else none
      addrinfo_add as sa c

/-- `addrinfo_from_yp` over the match result's lines (line splitting and
`strsplit` tokenization are the external utility). -/
def addrinfo_from_yp (env : Env) (as : Async) (family : Int)
    (lines : List (List String)) : Async :=
  lines.foldl (fun a tokens => ypLine env a family tokens) as

/-! ### The state machine -/

/-- One resumption outcome: `next` loops (`goto next`), `done` is
`ASYNC_DONE`.  The `ASYNC_COND` suspension is not observable here because
the sub-query oracle completes on first resumption. -/
inductive StepRes where
  | next (as : Async) (ar : AsyncRes)
  | done (as : Async) (ar : AsyncRes)
deriving Repr, DecidableEq

/-- The family a backend queries: the pinned hint family, else the family
cursor's entry. -/
def backendFamily (env : Env) (as : Async) : Int :=
  if as.hints.ai_family == AF_UNSPEC then AS_FAMILY env as else as.hints.ai_family

/-- One dispatch of `getaddrinfo_async_run`'s switch. -/
def step (env : Env) (as : Async) (ar : AsyncRes) : StepRes :=
  match as.state with
  | .INIT =>
    let p := stepInit env as ar
    .next p.1 p.2
  | .NEXT_DB =>
    match asr_iter_db env as with
    | none => .next { as with state := .NOT_FOUND } ar
    | some as => .next { as with family_idx := 0, state := .SAME_DB } ar
  | .NEXT_FAMILY =>
    let as := { as with family_idx := as.family_idx + 1 }
    if as.hints.ai_family != AF_UNSPEC || AS_FAMILY env as == -1 then
      -- the family was specified, or all families were tried with this DB
      if as.count != 0 then .next { as with state := .HALT } { ar with gai_errno := 0 }
      else .next { as with state := .NEXT_DB } ar
    else .next { as with state := .SAME_DB } ar
  | .SAME_DB =>
    match AS_DB env as with
    | some .dns =>
      let family := backendFamily env as
      let qname := match as.fqdn with
        | some f => f        -- res_query_async_ctx on the learned fqdn
        | none => as.hostname.getD ""  -- res_search_async_ctx on the hostname
      let qtype := if family == AF_INET6 then T_AAAA else T_A
      match env.dnsSubmitENOMEM qname qtype with
      | some isMem =>
        .next { as with state := .HALT }
          { ar with gai_errno := if isMem then EAI_MEMORY else EAI_FAIL }
      | none => .next { as with subq := some (qname, qtype), state := .SUBQUERY } ar
    | some .file =>
      match env.hostfile with
      | none => .next { as with state := .NEXT_DB } ar
      | some lines =>
        let family := backendFamily env as
        .next { addrinfo_from_file env as family lines with state := .NEXT_FAMILY } ar
    | some .yp =>
      if !env.ypDomain then .next { as with state := .NEXT_DB } ar
      else
        let family := backendFamily env as
        let mapname := if family == AF_INET6 then "ipnodes.byname" else "hosts.byname"
        match env.ypMatch mapname (as.hostname.getD "") with
        | some lines =>
          .next { addrinfo_from_yp env as family lines with state := .NEXT_FAMILY } ar
        | none => .next { as with state := .NEXT_FAMILY } ar
    | none => .next { as with state := .NEXT_DB } ar
  | .SUBQUERY =>
    let q := as.subq.getD ("", 0)
    let as := { as with subq := none }
    match env.dnsAnswer q.1 q.2 with
    | none => .next { as with state := .NEXT_FAMILY } ar
    | some pkt => .next { addrinfo_from_pkt as pkt with state := .NEXT_FAMILY } ar
  | .NOT_FOUND =>
    .next { as with state := .HALT }
      { ar with gai_errno := if as.again then EAI_AGAIN else EAI_NODATA }
  | .HALT =>
    if ar.gai_errno == 0 then
      .done { as with ais := [] }
        { ar with ar_count := as.count, ar_addrinfo := as.ais }
    else
      .done as { ar with ar_count := 0, ar_addrinfo := [] }

/-- Iterate `step` (the `goto next` loop) until `ASYNC_DONE`, with fuel. -/
def runSteps (env : Env) : Nat → Async → AsyncRes → Option (Async × AsyncRes)
  | 0, _, _ => none
  | fuel+1, as, ar =>
    match step env as ar with
    | .next as' ar' => runSteps env fuel as' ar'
    | .done as' ar' => some (as', ar')

/-- `getaddrinfo_async`: build a fresh request (`async_new` zero-fills the
record; absent hints default to an unspecified family). -/
def getaddrinfo_async (hostname servname : Option String) (hints : Option Hints) : Async :=
  { state := .INIT
    hostname := hostname
    servname := servname
    hints := hints.getD { ai_flags := {}, ai_family := PF_UNSPEC, ai_socktype := 0, ai_protocol := 0 } }

/-! ### Derived descriptions of the family iteration -/

/-- The families `iter_family` still yields once the cursor is at `idx`
(the configured list read up to its `-1` terminator). -/
def famSeqFrom (env : Env) (idx : Nat) : List Int :=
  (env.famList.drop idx).takeWhile (fun f => f != -1)

/-- The full family sequence of one `INIT`-state loop: the single pinned
family, or the configured preference list. -/
def iterFamilySeq (env : Env) (hintsFam : Int) : List Int :=
  if hintsFam != PF_UNSPEC then [hintsFam] else famSeqFrom env 0

/-- First successful numeric parse of the hostname along a family list. -/
def scanNumeric (env : Env) (host : String) : List Int → Option Sockaddr
  | [] => none
  | f :: fs =>
    match env.parse f host with
    | some sa => some sa
    | none => scanNumeric env host fs

/-- The hostname-is-null synthesis as a plain fold: for each requested
family feed the wildcard/loopback literal of that family through the
builder. -/
def localSynth (env : Env) (fams : List Int) (as : Async) : Async :=
  fams.foldl
    (fun a f =>
      match env.parse f (localLiteral f a.hints.ai_flags.passive) with
      | some sa => addrinfo_add a sa none
      | none => a)
    as

/-- A family loop expressed over an explicit family list (with `break`). -/
def famFold (body : Int → Async → Async × Bool) : List Int → Async → Async
  | [], as => as
  | f :: fs, as =>
    let r := body f as
    if r.2 then r.1 else famFold body fs r.1

/-- The C error codes that the design's `InvalidArgument` kind groups
together: absent hostname and service, bad flag combination, unsupported
family or socket type, `SOCK_RAW` with a service name, and hints matching
no compatibility-table triple. -/
def invalidArgumentErrnos : List Int :=
  [EAI_NONAME, EAI_BADFLAGS, EAI_FAMILY, EAI_SOCKTYPE, EAI_SERVICE, EAI_BADHINTS]

/-! ### Builder normal form -/

theorem foldl_addrow (h : Hints) (ptcp pudp : Int) (sa : Sockaddr) (cname : Option String) :
    ∀ (L : List Nat) (a : Async),
      L.foldl (fun a i =>
          match addrinfo_entry h ptcp pudp sa cname i with
          | none => a
          | some e => { a with ais := a.ais ++ [e], count := a.count + 1 }) a
        = { a with ais := a.ais ++ L.filterMap (addrinfo_entry h ptcp pudp sa cname),
                   count := a.count + (L.filterMap (addrinfo_entry h ptcp pudp sa cname)).length } := by
  intro L
  induction L with
  | nil => intro a; simp
  | cons i L ih =>
    intro a
    simp only [List.foldl_cons, List.filterMap_cons]
    cases he : addrinfo_entry h ptcp pudp sa cname i with
    | none => exact ih a
    | some e =>
      rw [ih]
      simp [Async.mk.injEq, List.append_assoc]
      omega

/-- `addrinfo_add` in normal form: append the compatible entries and bump
the count accordingly. -/
theorem addrinfo_add_eq (as : Async) (sa : Sockaddr) (cname : Option String) :
    addrinfo_add as sa cname =
      { as with
        ais := as.ais ++ addrinfo_entries as.hints as.port_tcp as.port_udp sa cname,
        count := as.count + (addrinfo_entries as.hints as.port_tcp as.port_udp sa cname).length } := by
  unfold addrinfo_add addrinfo_entries
  exact foldl_addrow as.hints as.port_tcp as.port_udp sa cname (List.range matchesTab.length) as

theorem addrinfo_add_hints (as : Async) (sa : Sockaddr) (cname : Option String) :
    (addrinfo_add as sa cname).hints = as.hints := by
  rw [addrinfo_add_eq]

theorem addrinfo_add_idx_comm (as : Async) (sa : Sockaddr) (cname : Option String) (j : Nat) :
    addrinfo_add { as with family_idx := j } sa cname
      = { addrinfo_add as sa cname with family_idx := j } := by
  rw [addrinfo_add_eq, addrinfo_add_eq]

/-! ### The family loops, characterized over explicit family lists -/

theorem getD_eq_headD_drop (l : List Int) (n : Nat) (d : Int) :
    l.getD n d = (l.drop n).headD d := by
  induction l generalizing n with
  | nil => cases n <;> rfl
  | cons x xs ih => cases n with
    | zero => rfl
    | succ m => simp [ih m]

theorem famFold_idx_comm (body : Int → Async → Async × Bool)
    (hComm : ∀ f a j, body f { a with family_idx := j }
        = ({ (body f a).1 with family_idx := j }, (body f a).2)) :
    ∀ (l : List Int) (a : Async) (j : Nat),
      famFold body l { a with family_idx := j } = { famFold body l a with family_idx := j } := by
  intro l
  induction l with
  | nil => intro a j; rfl
  | cons f fs ih =>
    intro a j
    simp only [famFold, hComm f a j]
    by_cases hb : (body f a).2
    · simp [hb]
    · simp only [hb, if_false, Bool.false_eq_true]
      exact ih (body f a).1 j

theorem famLoopGo_unspec (env : Env) (body : Int → Async → Async × Bool)
    (hComm : ∀ f a j, body f { a with family_idx := j }
        = ({ (body f a).1 with family_idx := j }, (body f a).2))
    (hHints : ∀ f a, (body f a).1.hints = a.hints) :
    ∀ (fuel : Nat) (as : Async), as.hints.ai_family = PF_UNSPEC →
      env.famList.length + 1 ≤ as.family_idx + fuel →
      ∃ j, famLoopGo env body fuel (AS_FAMILY env as) as
        = { famFold body (famSeqFrom env as.family_idx) as with family_idx := j } := by
  intro fuel
  induction fuel with
  | zero =>
    intro as hU hb
    refine ⟨as.family_idx, ?_⟩
    have hdrop : env.famList.drop as.family_idx = [] :=
      List.drop_eq_nil_of_le (by omega)
    simp [famLoopGo, famSeqFrom, hdrop, famFold]
  | succ fuel ih =>
    intro as hU hb
    have hAS : AS_FAMILY env as = (env.famList.drop as.family_idx).headD (-1) :=
      getD_eq_headD_drop env.famList as.family_idx (-1)
    cases hdrop : env.famList.drop as.family_idx with
    | nil =>
      refine ⟨as.family_idx, ?_⟩
      rw [hdrop] at hAS
      simp [famLoopGo, hAS, famSeqFrom, hdrop, famFold]
    | cons f rest =>
      rw [hdrop] at hAS
      have hfs : AS_FAMILY env as = f := hAS
      have hdropsucc : env.famList.drop (as.family_idx + 1) = rest := by
        rw [← List.drop_drop, hdrop]
        rfl
      by_cases hf : f = -1
      · refine ⟨as.family_idx, ?_⟩
        subst hf
        simp [famLoopGo, hfs, famSeqFrom, hdrop, famFold]
      · have hfne : (f == (-1 : Int)) = false := by simpa using hf
        by_cases hbrk : (body f as).2
        · refine ⟨(body f as).1.family_idx, ?_⟩
          simp [famLoopGo, hfs, hfne, famSeqFrom, hdrop, List.takeWhile_cons, hf, famFold, hbrk]
        · have hb1idx : (body f as).1.family_idx = as.family_idx :=
            congrArg (fun p => p.1.family_idx) (hComm f as as.family_idx)
          have hiter : iter_family env (body f as).1 false
              = (AS_FAMILY env { (body f as).1 with family_idx := as.family_idx + 1 },
                 { (body f as).1 with family_idx := as.family_idx + 1 }) := by
            simp only [iter_family, hHints f as, hU]
            rw [hb1idx]
            simp
          have hargHints : ({ (body f as).1 with family_idx := as.family_idx + 1 } : Async).hints.ai_family
              = PF_UNSPEC := by
            simpa using congrArg Hints.ai_family (hHints f as) |>.trans hU
          obtain ⟨j, hj⟩ := ih { (body f as).1 with family_idx := as.family_idx + 1 }
            hargHints (by simpa using by omega)
          refine ⟨j, ?_⟩
          simp only [famLoopGo, hfs, hfne, Bool.false_eq_true, if_false, hbrk, hiter]
          rw [hj]
          have hseq : famSeqFrom env (as.family_idx + 1) = rest.takeWhile (fun f => f != -1) := by
            simp [famSeqFrom, hdropsucc]
          rw [show ({ (body f as).1 with family_idx := as.family_idx + 1 } : Async).family_idx
                = as.family_idx + 1 from rfl] at hj ⊢
          rw [hseq, famFold_idx_comm body hComm]
          simp only [famSeqFrom, hdrop, List.takeWhile_cons, show ((f != (-1 : Int)) = true) by simpa using hf,
            famFold, hbrk, Bool.false_eq_true, if_false]

theorem famLoopGo_pinned (env : Env) (body : Int → Async → Async × Bool)
    (hHints : ∀ f a, (body f a).1.hints = a.hints)
    (fuel : Nat) (as : Async) (F : Int)
    (hF : as.hints.ai_family = F) (hne : F ≠ PF_UNSPEC) (hm1 : F ≠ -1)
    (hfuel : 2 ≤ fuel) :
    famLoopGo env body fuel F as = famFold body [F] as := by
  obtain ⟨k, rfl⟩ : ∃ k, fuel = k + 2 := ⟨fuel - 2, by omega⟩
  have hFne : (F == (-1 : Int)) = false := by simpa using hm1
  simp only [famLoopGo, hFne, Bool.false_eq_true, if_false]
  by_cases hbrk : (body F as).2
  · simp [famFold, hbrk]
  · have hiter : iter_family env (body F as).1 false = (-1, (body F as).1) := by
      simp only [iter_family, hHints F as, hF]
      rw [if_neg (by simp [hne])]
      simp [hne]
    simp [hbrk, hiter, famLoopGo, famFold]

theorem famLoopStart_eq (env : Env) (body : Int → Async → Async × Bool)
    (hComm : ∀ f a j, body f { a with family_idx := j }
        = ({ (body f a).1 with family_idx := j }, (body f a).2))
    (hHints : ∀ f a, (body f a).1.hints = a.hints)
    (as : Async)
    (hfam : as.hints.ai_family = PF_UNSPEC ∨
            (as.hints.ai_family ≠ PF_UNSPEC ∧ as.hints.ai_family ≠ -1)) :
    ∃ j, famLoopStart env body as
      = { famFold body (iterFamilySeq env as.hints.ai_family) as with family_idx := j } := by
  rcases hfam with hU | ⟨hP, hm1⟩
  · have hiter : iter_family env as true
        = (AS_FAMILY env { as with family_idx := 0 }, { as with family_idx := 0 }) := by
      simp [iter_family, hU]
    obtain ⟨j, hj⟩ := famLoopGo_unspec env body hComm hHints (env.famList.length + 2)
      { as with family_idx := 0 } (by simpa using hU) (by simp)
    refine ⟨j, ?_⟩
    unfold famLoopStart
    rw [hiter]
    simp only at hj
    rw [hj]
    have : famSeqFrom env (({ as with family_idx := 0 } : Async).family_idx)
        = famSeqFrom env 0 := rfl
    rw [this, famFold_idx_comm body hComm (famSeqFrom env 0) as 0]
    simp [iterFamilySeq, hU]
  · have hiter : iter_family env as true = (as.hints.ai_family, { as with family_idx := 0 }) := by
      simp [iter_family, hP]
    refine ⟨0, ?_⟩
    unfold famLoopStart
    rw [hiter]
    rw [famLoopGo_pinned env body hHints (env.famList.length + 2)
      { as with family_idx := 0 } as.hints.ai_family rfl hP hm1 (by omega)]
    rw [famFold_idx_comm body hComm [as.hints.ai_family] as 0]
    simp [iterFamilySeq, hP]

/-! ### The two `INIT` bodies, described over family lists -/

theorem numericBody_comm (env : Env) (host : String) :
    ∀ f a j, numericBody env host f { a with family_idx := j }
      = ({ (numericBody env host f a).1 with family_idx := j }, (numericBody env host f a).2) := by
  intro f a j
  simp only [numericBody]
  cases env.parse f host with
  | none => rfl
  | some sa => simp [addrinfo_add_idx_comm]

theorem numericBody_hints (env : Env) (host : String) :
    ∀ f a, (numericBody env host f a).1.hints = a.hints := by
  intro f a
  simp only [numericBody]
  cases env.parse f host with
  | none => rfl
  | some sa => simp [addrinfo_add_hints]

theorem localBody_comm (env : Env) :
    ∀ f a j, localBody env f { a with family_idx := j }
      = ({ (localBody env f a).1 with family_idx := j }, (localBody env f a).2) := by
  intro f a j
  simp only [localBody]
  cases env.parse f (localLiteral f a.hints.ai_flags.passive) with
  | none => rfl
  | some sa => simp [addrinfo_add_idx_comm]

theorem localBody_hints (env : Env) :
    ∀ f a, (localBody env f a).1.hints = a.hints := by
  intro f a
  simp only [localBody]
  cases env.parse f (localLiteral f a.hints.ai_flags.passive) with
  | none => rfl
  | some sa => simp [addrinfo_add_hints]

/-- The numeric loop adds the entries of the first family whose parser
accepts the hostname, and stops there. -/
theorem famFold_numeric (env : Env) (host : String) :
    ∀ (l : List Int) (as : Async),
      famFold (numericBody env host) l as =
        match scanNumeric env host l with
        | some sa => addrinfo_add as sa none
        | none => as := by
  intro l
  induction l with
  | nil => intro as; rfl
  | cons f fs ih =>
    intro as
    simp only [famFold, numericBody, scanNumeric]
    cases env.parse f host with
    | none => simpa using ih as
    | some sa => rfl

/-- The hostname-is-null loop is the per-family local-address synthesis. -/
theorem famFold_local (env : Env) :
    ∀ (l : List Int) (as : Async), famFold (localBody env) l as = localSynth env l as := by
  intro l
  induction l with
  | nil => intro as; rfl
  | cons f fs ih =>
    intro as
    simp only [famFold, localBody, localSynth, List.foldl_cons]
    cases env.parse f (localLiteral f as.hints.ai_flags.passive) with
    | none => simpa [localSynth] using ih as
    | some sa => simpa [localSynth] using ih (addrinfo_add as sa none)

/-! ### Small facts about the `INIT` helpers -/

theorem initPorts_hostname (env : Env) (as : Async) :
    (initPorts env as).hostname = as.hostname := by
  by_cases h1 : (as.hints.ai_protocol == 0 || as.hints.ai_protocol == IPPROTO_UDP) = true <;>
    by_cases h2 : (as.hints.ai_protocol == 0 || as.hints.ai_protocol == IPPROTO_TCP) = true <;>
    simp [initPorts, h1, h2]

theorem initPorts_hints (env : Env) (as : Async) :
    (initPorts env as).hints = as.hints := by
  by_cases h1 : (as.hints.ai_protocol == 0 || as.hints.ai_protocol == IPPROTO_UDP) = true <;>
    by_cases h2 : (as.hints.ai_protocol == 0 || as.hints.ai_protocol == IPPROTO_TCP) = true <;>
    simp [initPorts, h1, h2]

theorem initPorts_count (env : Env) (as : Async) :
    (initPorts env as).count = as.count := by
  by_cases h1 : (as.hints.ai_protocol == 0 || as.hints.ai_protocol == IPPROTO_UDP) = true <;>
    by_cases h2 : (as.hints.ai_protocol == 0 || as.hints.ai_protocol == IPPROTO_TCP) = true <;>
    simp [initPorts, h1, h2]

theorem initPorts_ais (env : Env) (as : Async) :
    (initPorts env as).ais = as.ais := by
  by_cases h1 : (as.hints.ai_protocol == 0 || as.hints.ai_protocol == IPPROTO_UDP) = true <;>
    by_cases h2 : (as.hints.ai_protocol == 0 || as.hints.ai_protocol == IPPROTO_TCP) = true <;>
    simp [initPorts, h1, h2]

/-- A request passing the early validation checks has an unspecified or
a supported hint family. -/
theorem initChecks_none_family (as : Async) (h : initChecks as = none) :
    as.hints.ai_family = PF_UNSPEC ∨ as.hints.ai_family = PF_INET ∨
      as.hints.ai_family = PF_INET6 := by
  simp only [initChecks] at h
  by_cases h1 : (as.hostname.isNone && as.servname.isNone) = true
  · rw [if_pos h1] at h; exact Option.noConfusion h
  rw [if_neg h1] at h
  by_cases h2 : (as.hints.ai_flags.unknownBits ||
      (as.hints.ai_flags.canonname && as.hints.ai_flags.fqdn)) = true
  · rw [if_pos h2] at h; exact Option.noConfusion h
  rw [if_neg h2] at h
  by_cases h3 : (as.hints.ai_family != PF_UNSPEC && as.hints.ai_family != PF_INET &&
      as.hints.ai_family != PF_INET6) = true
  · rw [if_pos h3] at h; exact Option.noConfusion h
  simp only [Bool.and_eq_true, bne_iff_ne, ne_eq, not_and, Decidable.not_not,
    Classical.not_imp] at h3
  by_cases hu : as.hints.ai_family = PF_UNSPEC
  · exact Or.inl hu
  by_cases hi : as.hints.ai_family = PF_INET
  · exact Or.inr (Or.inl hi)
  exact Or.inr (Or.inr (by tauto))

/-- The request record carried by a step outcome. -/
def StepRes.asOf : StepRes → Async
  | .next a _ => a
  | .done a _ => a

/-! ### Claim theorems -/

/-- **C5.** A request in which both the hostname and the service name are
absent fails at once: the `INIT` validation sets `EAI_NONAME` (the code
the design's `InvalidArgument` kind covers for this case), the machine
halts, and the result carries no address entries. -/
theorem C5_no_names_invalid (env : Env) (h : Option Hints) (ar : AsyncRes) :
    runSteps env 2 (getaddrinfo_async none none h) ar
      = some ({ getaddrinfo_async none none h with state := .HALT },
              { ar with gai_errno := EAI_NONAME, ar_count := 0, ar_addrinfo := [] })
    ∧ EAI_NONAME ∈ invalidArgumentErrnos := by
  constructor
  · rfl
  · simp [invalidArgumentErrnos]

/-- **C7.** Once every configured backend is exhausted with no discovered
address, the machine passes through `NOT_FOUND` and halts with `EAI_AGAIN`
when the request is marked retryable and `EAI_NODATA` otherwise, with no
address entries in the result. -/
theorem C7_exhausted_again_or_nodata (env : Env) (as : Async) (ar : AsyncRes)
    (hstate : as.state = .NEXT_DB)
    (hexh : env.dbs.length ≤ as.db_idx)
    (_hcnt : as.count = 0) :
    runSteps env 3 as ar
      = some ({ as with state := .HALT },
              { ar with gai_errno := if as.again then EAI_AGAIN else EAI_NODATA,
                        ar_count := 0, ar_addrinfo := [] }) := by
  have hiter : asr_iter_db env as = none := by
    simp [asr_iter_db]
    omega
  by_cases hag : as.again = true <;>
    simp [runSteps, step, hstate, hiter, hag, EAI_AGAIN, EAI_NODATA]

theorem C7_exhausted_again_or_nodata_witness :
    let env : Env :=
      { parse := fun _ _ => none, parseNum := fun _ => none,
        servByName := fun _ _ => none, famList := [PF_INET, PF_INET6], dbs := [DbKind.file],
        hostfile := none, dnsSubmitENOMEM := fun _ _ => none,
        dnsAnswer := fun _ _ => none, ypDomain := false, ypMatch := fun _ _ => none }
    let as : Async :=
      { state := .NEXT_DB, hostname := some "h", servname := none,
        hints := {}, db_idx := 1, again := true }
    runSteps env 3 as {}
      = some ({ as with state := .HALT },
              { gai_errno := if as.again then EAI_AGAIN else EAI_NODATA,
                ar_count := 0, ar_addrinfo := [] }) := by
  intro env as
  exact C7_exhausted_again_or_nodata env as {} rfl (by decide) rfl

/-- **C3.** At a family-sequence boundary (pinned hint family, or the
family iterator exhausted after the increment), a nonzero running count
makes the machine halt successfully, transferring the accumulated list,
and it never advances to another backend; a zero count sends it to
`NEXT_DB` instead. -/
theorem C3_family_boundary (env : Env) (as : Async) (ar : AsyncRes)
    (hstate : as.state = .NEXT_FAMILY)
    (hbound : as.hints.ai_family ≠ AF_UNSPEC ∨
              AS_FAMILY env { as with family_idx := as.family_idx + 1 } = -1) :
    (as.count ≠ 0 →
      runSteps env 2 as ar
        = some ({ as with family_idx := as.family_idx + 1, state := .HALT, ais := [] },
                { ar with gai_errno := 0, ar_count := as.count, ar_addrinfo := as.ais })) ∧
    (as.count = 0 →
      step env as ar = .next { as with family_idx := as.family_idx + 1, state := .NEXT_DB } ar) := by
  obtain ⟨st, hn, sv, hints, ptcp, pudp, fq, ais, cnt, fidx, dbidx, agn, sq⟩ := as
  dsimp only at hstate hbound ⊢
  subst hstate
  constructor
  · intro hc
    rcases hbound with hb | hb
    · simp [runSteps, step, hb, hc]
    · simp [AS_FAMILY] at hb
      simp [runSteps, step, AS_FAMILY, hb, hc]
  · intro hc
    rcases hbound with hb | hb
    · simp [step, hb, hc]
    · simp [AS_FAMILY] at hb
      simp [step, AS_FAMILY, hb, hc]

theorem C3_family_boundary_witness :
    let env : Env :=
      { parse := fun _ _ => none, parseNum := fun _ => none,
        servByName := fun _ _ => none, famList := [PF_INET], dbs := [],
        hostfile := none, dnsSubmitENOMEM := fun _ _ => none,
        dnsAnswer := fun _ _ => none, ypDomain := false, ypMatch := fun _ _ => none }
    let ent : AddrinfoEnt :=
      { ai_family := PF_INET, ai_socktype := SOCK_STREAM, ai_protocol := IPPROTO_TCP,
        ai_addr := { sa_family := PF_INET, addr := [1, 2, 3, 4] }, ai_canonname := none }
    let as : Async :=
      { state := .NEXT_FAMILY, hostname := some "h", servname := none,
        hints := { ai_family := PF_INET }, ais := [ent], count := 1 }
    runSteps env 2 as {}
      = some ({ as with family_idx := 1, state := .HALT, ais := [] },
              { gai_errno := 0, ar_count := 1, ar_addrinfo := [ent] }) := by
  intro env ent as
  have h := (C3_family_boundary env as {} rfl (Or.inl (by simp [Hints.ai_family, AF_UNSPEC, PF_UNSPEC, PF_INET]))).1
    (by simp [Async.count])
  simpa using h

/-- **C2.** A hint socket type of `SOCK_RAW` together with a non-empty
service name makes the `INIT` validation fail before any backend state is
reached: the machine halts in two dispatches with an error the design's
`InvalidArgument` kind covers (`EAI_BADFLAGS`, `EAI_FAMILY`, or the
dedicated `EAI_SERVICE` of the RAW-with-service check) and no address
entries. -/
theorem C2_raw_with_service (env : Env) (as : Async) (ar : AsyncRes) (s : String)
    (hstate : as.state = .INIT)
    (hserv : as.servname = some s)
    (hsock : as.hints.ai_socktype = SOCK_RAW) :
    ∃ er, er ∈ invalidArgumentErrnos ∧
      runSteps env 2 as ar
        = some ({ as with count := 0, state := .HALT },
                { ar with gai_errno := er, ar_count := 0, ar_addrinfo := [] }) := by
  obtain ⟨st, hn, sv, hints, ptcp, pudp, fq, ais, cnt, fidx, dbidx, agn, sq⟩ := as
  obtain rfl : st = .INIT := hstate
  obtain rfl : sv = some s := hserv
  obtain ⟨fl, fam, sock, proto⟩ := hints
  obtain rfl : sock = SOCK_RAW := hsock
  by_cases h2 : (fl.unknownBits || (fl.canonname && fl.fqdn)) = true
  · refine ⟨EAI_BADFLAGS, by simp [invalidArgumentErrnos], ?_⟩
    simp [runSteps, step, stepInit, initChecks, h2, EAI_BADFLAGS]
  · by_cases h3 : (fam != PF_UNSPEC && fam != PF_INET && fam != PF_INET6) = true
    · refine ⟨EAI_FAMILY, by simp [invalidArgumentErrnos], ?_⟩
      simp [runSteps, step, stepInit, initChecks, h2, h3, EAI_FAMILY]
    · refine ⟨EAI_SERVICE, by simp [invalidArgumentErrnos], ?_⟩
      simp [runSteps, step, stepInit, initChecks, h2, h3, EAI_SERVICE,
        SOCK_RAW, SOCK_DGRAM, SOCK_STREAM]

theorem C2_raw_with_service_witness :
    let env : Env :=
      { parse := fun _ _ => none, parseNum := fun _ => none,
        servByName := fun _ _ => none, famList := [PF_INET, PF_INET6], dbs := [],
        hostfile := none, dnsSubmitENOMEM := fun _ _ => none,
        dnsAnswer := fun _ _ => none, ypDomain := false, ypMatch := fun _ _ => none }
    let as : Async := getaddrinfo_async (some "h") (some "smtp")
      (some { ai_socktype := SOCK_RAW })
    ∃ er, er ∈ invalidArgumentErrnos ∧
      runSteps env 2 as {}
        = some ({ as with count := 0, state := .HALT },
                { gai_errno := er, ar_count := 0, ar_addrinfo := [] }) := by
  intro env as
  exact C2_raw_with_service env as {} "smtp" rfl rfl rfl

theorem matchesRange : List.range matchesTab.length = [0, 1, 2, 3, 4, 5] := by rfl

theorem range6 : List.range 6 = [0, 1, 2, 3, 4, 5] := by rfl

/-- **C10.** `MATCH_PROTO` with an explicit protocol hint (TCP or UDP)
accepts the two RAW rows of the table (indices 2 and 5, table protocol 0);
with the socket-type hint pinned to `SOCK_RAW`, the builder therefore
appends exactly one entry per discovered address, carrying socket type
`SOCK_RAW`, the hinted protocol, and the port resolved for that protocol
(provided the service resolved for it, i.e. that port is not `-1`). -/
theorem C10_raw_rows (as : Async) (sa : Sockaddr) (cname : Option String)
    (hsock : as.hints.ai_socktype = SOCK_RAW)
    (hP : as.hints.ai_protocol = IPPROTO_TCP ∨ as.hints.ai_protocol = IPPROTO_UDP)
    (hfam : sa.sa_family = PF_INET ∨ sa.sa_family = PF_INET6)
    (hport : (if as.hints.ai_protocol == IPPROTO_TCP then as.port_tcp else as.port_udp) ≠ -1) :
    MATCH_PROTO as.hints.ai_protocol 2 = true ∧
    MATCH_PROTO as.hints.ai_protocol 5 = true ∧
    addrinfo_add as sa cname
      = { as with
          ais := as.ais ++
            [{ ai_family := sa.sa_family, ai_socktype := SOCK_RAW,
               ai_protocol := as.hints.ai_protocol,
               ai_addr := { sa with sin_port :=
                 if as.hints.ai_protocol == IPPROTO_TCP then as.port_tcp else as.port_udp },
               ai_canonname := if cname.isSome &&
                   (as.hints.ai_flags.canonname || as.hints.ai_flags.fqdn) then cname
                 else none }],
          count := as.count + 1 } := by
  obtain ⟨st, hn, sv, hints, ptcp, pudp, fq, ais, cnt, fidx, dbidx, agn, sq⟩ := as
  obtain ⟨fl, fam, sock, proto⟩ := hints
  obtain rfl : sock = SOCK_RAW := hsock
  obtain ⟨sfam, sport, saddr⟩ := sa
  rcases hP with hp | hp
  · obtain rfl : proto = IPPROTO_TCP := hp
    have hp' : (ptcp == (-1 : Int)) = false := by simpa using hport
    rcases hfam with hf | hf
    · obtain rfl : sfam = PF_INET := hf
      refine ⟨rfl, rfl, ?_⟩
      rw [addrinfo_add_eq]
      simp [addrinfo_entries, addrinfo_entry, matchesRange, range6, matchAt, matchesTab,
        MATCH_SOCKTYPE, MATCH_PROTO, setPort, SOCK_RAW, SOCK_DGRAM, SOCK_STREAM,
        IPPROTO_TCP, IPPROTO_UDP, PF_INET, PF_INET6, hp']
    · obtain rfl : sfam = PF_INET6 := hf
      refine ⟨rfl, rfl, ?_⟩
      rw [addrinfo_add_eq]
      simp [addrinfo_entries, addrinfo_entry, matchesRange, range6, matchAt, matchesTab,
        MATCH_SOCKTYPE, MATCH_PROTO, setPort, SOCK_RAW, SOCK_DGRAM, SOCK_STREAM,
        IPPROTO_TCP, IPPROTO_UDP, PF_INET, PF_INET6, hp']
  · obtain rfl : proto = IPPROTO_UDP := hp
    have hp' : (pudp == (-1 : Int)) = false := by simpa using hport
    rcases hfam with hf | hf
    · obtain rfl : sfam = PF_INET := hf
      refine ⟨rfl, rfl, ?_⟩
      rw [addrinfo_add_eq]
      simp [addrinfo_entries, addrinfo_entry, matchesRange, range6, matchAt, matchesTab,
        MATCH_SOCKTYPE, MATCH_PROTO, setPort, SOCK_RAW, SOCK_DGRAM, SOCK_STREAM,
        IPPROTO_TCP, IPPROTO_UDP, PF_INET, PF_INET6, hp']
    · obtain rfl : sfam = PF_INET6 := hf
      refine ⟨rfl, rfl, ?_⟩
      rw [addrinfo_add_eq]
      simp [addrinfo_entries, addrinfo_entry, matchesRange, range6, matchAt, matchesTab,
        MATCH_SOCKTYPE, MATCH_PROTO, setPort, SOCK_RAW, SOCK_DGRAM, SOCK_STREAM,
        IPPROTO_TCP, IPPROTO_UDP, PF_INET, PF_INET6, hp']

theorem C10_raw_rows_witness :
    let as : Async :=
      { state := .INIT, hostname := some "h", servname := none,
        hints := { ai_socktype := SOCK_RAW, ai_protocol := IPPROTO_TCP } }
    let sa : Sockaddr := { sa_family := PF_INET, addr := [9, 9, 9, 9] }
    MATCH_PROTO as.hints.ai_protocol 2 = true ∧
    MATCH_PROTO as.hints.ai_protocol 5 = true ∧
    addrinfo_add as sa none
      = { as with
          ais := as.ais ++
            [{ ai_family := sa.sa_family, ai_socktype := SOCK_RAW,
               ai_protocol := as.hints.ai_protocol,
               ai_addr := { sa with sin_port :=
                 if as.hints.ai_protocol == IPPROTO_TCP then as.port_tcp else as.port_udp },
               ai_canonname := if (none : Option String).isSome &&
                   (as.hints.ai_flags.canonname || as.hints.ai_flags.fqdn) then none
                 else none }],
          count := as.count + 1 } := by
  intro as sa
  exact C10_raw_rows as sa none rfl (Or.inl rfl) (Or.inl rfl) (by decide)

/-- **C9 (counterexample).** The claim says that under the
fully-qualified-name flag the canonical name forwarded by the hosts-file
matcher is the request's already-known fqdn.  In the code
(`addrinfo_from_file`, lines 607-612) the forwarded name is `tokens[1]`,
the line's first name token, for either name flag: a request that already
knows the fqdn `known.example.com` and matches the line
`1.2.3.4 foo` receives the canonical name `foo`. -/
def c9env : Env :=
  { parse := fun f s =>
      if f == PF_INET && s == "1.2.3.4" then
        some { sa_family := PF_INET, addr := [1, 2, 3, 4] }
      else none
    parseNum := fun _ => none
    servByName := fun _ _ => none
    famList := [PF_INET, PF_INET6]
    dbs := [DbKind.file]
    hostfile := none
    dnsSubmitENOMEM := fun _ _ => none
    dnsAnswer := fun _ _ => none
    ypDomain := false
    ypMatch := fun _ _ => none }

def c9as : Async :=
  { state := .SAME_DB, hostname := some "foo", servname := none,
    hints := { ai_flags := { fqdn := true }, ai_socktype := SOCK_STREAM },
    fqdn := some "known.example.com" }

theorem C9_counterexample :
    c9as.fqdn = some "known.example.com" ∧
    c9as.hints.ai_flags.fqdn = true ∧ c9as.hints.ai_flags.canonname = false ∧
    ((addrinfo_from_file c9env c9as PF_INET [["1.2.3.4", "foo"]]).ais.map
        (fun e => e.ai_canonname)) = [some "foo"] ∧
    ¬ ((addrinfo_from_file c9env c9as PF_INET [["1.2.3.4", "foo"]]).ais.map
        (fun e => e.ai_canonname)) = [some "known.example.com"] := by
  refine ⟨rfl, rfl, rfl, rfl, ?_⟩
  decide

/-- **C9 (amended).** For a matching local-database line, the canonical
name forwarded to the builder is the line's first name token whenever
either the canonical-name or the fully-qualified-name flag is set — not
the request's already-known fqdn — and none when neither flag is set. -/
theorem C9_file_cname (env : Env) (as : Async) (family : Int) (tokens : List String)
    (host : String) (sa : Sockaddr)
    (hhost : as.hostname = some host)
    (hmatch : (tokens.drop 1).any (fun t => strcaseEq host t) = true)
    (hparse : env.parse family (tokens.getD 0 "") = some sa) :
    addrinfo_from_file env as family [tokens]
      = addrinfo_add as sa
          (if as.hints.ai_flags.canonname || as.hints.ai_flags.fqdn then
            some (tokens.getD 1 "")
          else none) := by
  have hm : ∃ x ∈ tokens.tail, strcaseEq host x = true := by simpa using hmatch
  have hp : env.parse family (tokens[0]?.getD "") = some sa := by simpa using hparse
  simp [addrinfo_from_file, fileLine, fileFind, hhost, hp, hm]

theorem C9_file_cname_witness :
    addrinfo_from_file c9env c9as PF_INET [["1.2.3.4", "foo"]]
      = addrinfo_add c9as { sa_family := PF_INET, addr := [1, 2, 3, 4] }
          (if c9as.hints.ai_flags.canonname || c9as.hints.ai_flags.fqdn then
            some ((["1.2.3.4", "foo"] : List String).getD 1 "")
          else none) := by
  exact C9_file_cname c9env c9as PF_INET ["1.2.3.4", "foo"] "foo"
    { sa_family := PF_INET, addr := [1, 2, 3, 4] } rfl (by decide) (by decide)

/-- **C8 (counterexample).** The claim says a response with exactly two
matching A records yields exactly two address entries under hint family
INET.  With the socket type left unset the builder expands every address
into one entry per compatible table row (UDP and TCP), so two A records
yield four entries. -/
def c8as : Async :=
  { state := .SUBQUERY, hostname := some "x", servname := none,
    hints := { ai_family := PF_INET } }

def c8pkt : Pkt :=
  { qd := [{ q_type := T_A, q_class := C_IN, q_dname := "x.example.com." }],
    an := [{ rr_type := T_A, rr_class := C_IN, rr_dname := "x.example.com.", rr_addr := [1, 2, 3, 4] },
           { rr_type := T_A, rr_class := C_IN, rr_dname := "x.example.com.", rr_addr := [5, 6, 7, 8] }] }

theorem C8_counterexample :
    (addrinfo_from_pkt c8as c8pkt).ais.length = 4 ∧
    ¬ (addrinfo_from_pkt c8as c8pkt).ais.length = 2 := by
  refine ⟨rfl, ?_⟩
  decide

/-- The entry the extractor and builder append per matching A record when
the hints pin socket type STREAM under an unset protocol. -/
def c8Entry (as : Async) (dn : String) (a : List Nat) : AddrinfoEnt :=
  { ai_family := PF_INET, ai_socktype := SOCK_STREAM, ai_protocol := IPPROTO_TCP,
    ai_addr := { sa_family := PF_INET, sin_port := as.port_tcp, addr := a },
    ai_canonname :=
      if as.hints.ai_flags.canonname then some (stripDot dn)
      else if as.hints.ai_flags.fqdn then some (as.fqdn.getD (stripDot dn))
      else none }

/-- **C8 (amended).** For a response whose two answer records are A
records owned by the queried name, processed with hints that select a
single compatibility row (socket type STREAM, protocol unset) and a
resolved TCP port, the extractor and builder append exactly two entries;
each carries the canonical name derived from the queried name (trailing
root label stripped) when the canonical-name flag was requested, and no
canonical name when neither name flag was requested. -/
theorem C8_two_A_records (as : Async) (dn : String) (a1 a2 : List Nat)
    (hsock : as.hints.ai_socktype = SOCK_STREAM)
    (hproto : as.hints.ai_protocol = 0)
    (hport : as.port_tcp ≠ -1) :
    (addrinfo_from_pkt as
        { qd := [{ q_type := T_A, q_class := C_IN, q_dname := dn }],
          an := [{ rr_type := T_A, rr_class := C_IN, rr_dname := dn, rr_addr := a1 },
                 { rr_type := T_A, rr_class := C_IN, rr_dname := dn, rr_addr := a2 }] }).ais
      = as.ais ++ [c8Entry as dn a1, c8Entry as dn a2] ∧
    (as.hints.ai_flags.canonname = true →
      (c8Entry as dn a1).ai_canonname = some (stripDot dn) ∧
      (c8Entry as dn a2).ai_canonname = some (stripDot dn)) ∧
    (as.hints.ai_flags.canonname = false → as.hints.ai_flags.fqdn = false →
      (c8Entry as dn a1).ai_canonname = none ∧
      (c8Entry as dn a2).ai_canonname = none) := by
  obtain ⟨st, hn, sv, hints, ptcp, pudp, fq, ais, cnt, fidx, dbidx, agn, sq⟩ := as
  obtain ⟨fl, fam, sock, proto⟩ := hints
  obtain rfl : sock = SOCK_STREAM := hsock
  obtain rfl : proto = 0 := hproto
  have hp' : (ptcp == (-1 : Int)) = false := by simpa using hport
  refine ⟨?_,
    by intro hc; have hc' : fl.canonname = true := hc; simp [c8Entry, hc'],
    by
      intro hc hd
      have hc' : fl.canonname = false := hc
      have hd' : fl.fqdn = false := hd
      simp [c8Entry, hc', hd']⟩
  cases hfq : fq with
  | none =>
    by_cases hc : fl.canonname = true
    · simp [addrinfo_from_pkt, pktRecord, pktCname, addrinfo_add_eq, addrinfo_entries,
        addrinfo_entry, matchesRange, range6, matchAt, matchesTab, MATCH_SOCKTYPE, MATCH_PROTO,
        setPort, SOCK_RAW, SOCK_DGRAM, SOCK_STREAM, IPPROTO_TCP, IPPROTO_UDP,
        PF_INET, PF_INET6, AF_INET, AF_INET6, T_A, T_AAAA, C_IN, hp', hc, c8Entry]
    · by_cases hd : fl.fqdn = true
      · simp [addrinfo_from_pkt, pktRecord, pktCname, addrinfo_add_eq, addrinfo_entries,
          addrinfo_entry, matchesRange, range6, matchAt, matchesTab, MATCH_SOCKTYPE, MATCH_PROTO,
          setPort, SOCK_RAW, SOCK_DGRAM, SOCK_STREAM, IPPROTO_TCP, IPPROTO_UDP,
          PF_INET, PF_INET6, AF_INET, AF_INET6, T_A, T_AAAA, C_IN, hp', hc, hd, c8Entry]
      · simp [addrinfo_from_pkt, pktRecord, pktCname, addrinfo_add_eq, addrinfo_entries,
          addrinfo_entry, matchesRange, range6, matchAt, matchesTab, MATCH_SOCKTYPE, MATCH_PROTO,
          setPort, SOCK_RAW, SOCK_DGRAM, SOCK_STREAM, IPPROTO_TCP, IPPROTO_UDP,
          PF_INET, PF_INET6, AF_INET, AF_INET6, T_A, T_AAAA, C_IN, hp', hc, hd, c8Entry]
  | some f0 =>
    by_cases hc : fl.canonname = true
    · simp [addrinfo_from_pkt, pktRecord, pktCname, addrinfo_add_eq, addrinfo_entries,
        addrinfo_entry, matchesRange, range6, matchAt, matchesTab, MATCH_SOCKTYPE, MATCH_PROTO,
        setPort, SOCK_RAW, SOCK_DGRAM, SOCK_STREAM, IPPROTO_TCP, IPPROTO_UDP,
        PF_INET, PF_INET6, AF_INET, AF_INET6, T_A, T_AAAA, C_IN, hp', hc, c8Entry]
    · by_cases hd : fl.fqdn = true
      · simp [addrinfo_from_pkt, pktRecord, pktCname, addrinfo_add_eq, addrinfo_entries,
          addrinfo_entry, matchesRange, range6, matchAt, matchesTab, MATCH_SOCKTYPE, MATCH_PROTO,
          setPort, SOCK_RAW, SOCK_DGRAM, SOCK_STREAM, IPPROTO_TCP, IPPROTO_UDP,
          PF_INET, PF_INET6, AF_INET, AF_INET6, T_A, T_AAAA, C_IN, hp', hc, hd, c8Entry]
      · simp [addrinfo_from_pkt, pktRecord, pktCname, addrinfo_add_eq, addrinfo_entries,
          addrinfo_entry, matchesRange, range6, matchAt, matchesTab, MATCH_SOCKTYPE, MATCH_PROTO,
          setPort, SOCK_RAW, SOCK_DGRAM, SOCK_STREAM, IPPROTO_TCP, IPPROTO_UDP,
          PF_INET, PF_INET6, AF_INET, AF_INET6, T_A, T_AAAA, C_IN, hp', hc, hd, c8Entry]

/-- An environment with a working numeric parser for the usual literals, a
TCP-only `smtp` service, the default INET-then-INET6 family preference,
and one hosts-file backend. -/
def wEnv : Env :=
  { parse := fun f s =>
      if f == PF_INET && s == "1.2.3.4" then some { sa_family := PF_INET, addr := [1, 2, 3, 4] }
      else if f == PF_INET && s == "0.0.0.0" then some { sa_family := PF_INET, addr := [0, 0, 0, 0] }
      else if f == PF_INET && s == "127.0.0.1" then some { sa_family := PF_INET, addr := [127, 0, 0, 1] }
      else if f == PF_INET6 && s == "::" then some { sa_family := PF_INET6, addr := [0] }
      else if f == PF_INET6 && s == "::1" then some { sa_family := PF_INET6, addr := [0, 1] }
      else none
    parseNum := fun _ => none
    servByName := fun s p => if s == "smtp" && p == "tcp" then some 25 else none
    famList := [PF_INET, PF_INET6]
    dbs := [DbKind.file]
    hostfile := some [["5.6.7.8", "other"]]
    dnsSubmitENOMEM := fun _ _ => none
    dnsAnswer := fun _ _ => none
    ypDomain := false
    ypMatch := fun _ _ => none }

/-- **C1 (counterexample).** The claim says a hostname that parses as a
numeric literal in some requested family always halts the orchestrator
before any backend.  Take hints with socket type DGRAM, the TCP-only
service `smtp` (so the UDP port is unresolvable, `-1`) and the literal
`1.2.3.4`: the literal parses in the requested family INET, but the
builder skips its only candidate row over the `-1` port, the running count
stays zero, and the `INIT` state falls through to `NEXT_DB` — backend
iteration starts, and the final result is `EAI_NODATA` with no
literal-derived entry at all. -/
def c1as : Async :=
  getaddrinfo_async (some "1.2.3.4") (some "smtp") (some { ai_socktype := SOCK_DGRAM })

theorem C1_counterexample :
    (wEnv.parse PF_INET "1.2.3.4").isSome = true ∧
    iterFamilySeq wEnv c1as.hints.ai_family = [PF_INET, PF_INET6] ∧
    (step wEnv c1as {}).asOf.state = .NEXT_DB ∧
    (runSteps wEnv 20 c1as {}).map (fun p => p.2)
      = some { gai_errno := EAI_NODATA, ar_count := 0, ar_addrinfo := [] } := by
  exact ⟨rfl, rfl, rfl, rfl⟩

/-- **C1 (amended).** If the hostname parses as a numeric literal in some
requested family and the builder produces at least one entry from the
first accepting family's literal, then the orchestrator halts directly
from `INIT` — two dispatches, never reaching a backend state — with
success, and the final list consists exactly of the builder's entries for
that literal. -/
theorem C1_numeric_literal (env : Env) (as : Async) (ar : AsyncRes) (host : String) (sa : Sockaddr)
    (hstate : as.state = .INIT)
    (hhost : as.hostname = some host)
    (hais : as.ais = [])
    (hval : initChecks { as with count := 0 } = none)
    (hport : portInvalid (initPorts env { as with count := 0 }) = false)
    (hscan : scanNumeric env host (iterFamilySeq env as.hints.ai_family) = some sa)
    (hcnt : (addrinfo_add (initPorts env { as with count := 0 }) sa none).count ≠ 0) :
    ∃ j,
      runSteps env 2 as ar = some
        ({ addrinfo_add (initPorts env { as with count := 0 }) sa none with
            family_idx := j, state := .HALT, ais := [] },
         { ar with gai_errno := 0,
                   ar_count := (addrinfo_add (initPorts env { as with count := 0 }) sa none).count,
                   ar_addrinfo := (addrinfo_add (initPorts env { as with count := 0 }) sa none).ais }) ∧
      (addrinfo_add (initPorts env { as with count := 0 }) sa none).ais
        = addrinfo_entries as.hints
            (initPorts env { as with count := 0 }).port_tcp
            (initPorts env { as with count := 0 }).port_udp sa none := by
  have hbH : (initPorts env { as with count := 0 }).hints = as.hints :=
    initPorts_hints env { as with count := 0 }
  have hbhost : (initPorts env { as with count := 0 }).hostname = some host := by
    rw [initPorts_hostname]; exact hhost
  have hfam0 := initChecks_none_family { as with count := 0 } hval
  have hfam : (initPorts env { as with count := 0 }).hints.ai_family = PF_UNSPEC ∨
      ((initPorts env { as with count := 0 }).hints.ai_family ≠ PF_UNSPEC ∧
       (initPorts env { as with count := 0 }).hints.ai_family ≠ -1) := by
    rw [hbH]
    rcases hfam0 with h | h | h
    · exact Or.inl h
    · have h' : as.hints.ai_family = PF_INET := h
      exact Or.inr ⟨by simp [h', PF_INET, PF_UNSPEC], by simp [h', PF_INET]⟩
    · have h' : as.hints.ai_family = PF_INET6 := h
      exact Or.inr ⟨by simp [h', PF_INET6, PF_UNSPEC], by simp [h', PF_INET6]⟩
  obtain ⟨j, hloop⟩ := famLoopStart_eq env (numericBody env host)
    (numericBody_comm env host) (numericBody_hints env host)
    (initPorts env { as with count := 0 }) hfam
  rw [famFold_numeric, hbH, hscan] at hloop
  have hcnt' : (({ addrinfo_add (initPorts env { as with count := 0 }) sa none with
      family_idx := j } : Async).count != 0) = true := by simpa using hcnt
  refine ⟨j, ?_, ?_⟩
  · simp only [hstate] at hval hport hbhost hloop hcnt'
    simp [runSteps, step, hstate, stepInit, hval, hport, hbhost, hloop, hcnt']
  · rw [addrinfo_add_eq]
    have h1 : (initPorts env { as with count := 0 }).ais = [] := by
      rw [initPorts_ais]; exact hais
    rw [h1, List.nil_append, hbH]

theorem C1_numeric_literal_witness :
    let as : Async := getaddrinfo_async (some "1.2.3.4") none none
    let sa : Sockaddr := { sa_family := PF_INET, addr := [1, 2, 3, 4] }
    ∃ j,
      runSteps wEnv 2 as {} = some
        ({ addrinfo_add (initPorts wEnv { as with count := 0 }) sa none with
            family_idx := j, state := .HALT, ais := [] },
         { gai_errno := 0,
           ar_count := (addrinfo_add (initPorts wEnv { as with count := 0 }) sa none).count,
           ar_addrinfo := (addrinfo_add (initPorts wEnv { as with count := 0 }) sa none).ais }) ∧
      (addrinfo_add (initPorts wEnv { as with count := 0 }) sa none).ais
        = addrinfo_entries as.hints
            (initPorts wEnv { as with count := 0 }).port_tcp
            (initPorts wEnv { as with count := 0 }).port_udp sa none := by
  intro as sa
  exact C1_numeric_literal wEnv as {} "1.2.3.4" sa rfl rfl rfl rfl rfl rfl (by decide)

/-- **C4.** Under the numeric-host-only flag, when no requested family's
parser accepts the hostname, the `INIT` state halts with `EAI_FAIL` (the
code of the design's `NotNumeric` kind) and the result carries no
entries. -/
theorem C4_numerichost_fail (env : Env) (as : Async) (ar : AsyncRes) (host : String)
    (hstate : as.state = .INIT)
    (hhost : as.hostname = some host)
    (hval : initChecks { as with count := 0 } = none)
    (hport : portInvalid (initPorts env { as with count := 0 }) = false)
    (hscan : scanNumeric env host (iterFamilySeq env as.hints.ai_family) = none)
    (hnum : as.hints.ai_flags.numerichost = true) :
    ∃ j,
      runSteps env 2 as ar = some
        ({ initPorts env { as with count := 0 } with family_idx := j, state := .HALT },
         { ar with gai_errno := EAI_FAIL, ar_count := 0, ar_addrinfo := [] }) := by
  have hbH : (initPorts env { as with count := 0 }).hints = as.hints :=
    initPorts_hints env { as with count := 0 }
  have hbhost : (initPorts env { as with count := 0 }).hostname = some host := by
    rw [initPorts_hostname]; exact hhost
  have hfam0 := initChecks_none_family { as with count := 0 } hval
  have hfam : (initPorts env { as with count := 0 }).hints.ai_family = PF_UNSPEC ∨
      ((initPorts env { as with count := 0 }).hints.ai_family ≠ PF_UNSPEC ∧
       (initPorts env { as with count := 0 }).hints.ai_family ≠ -1) := by
    rw [hbH]
    rcases hfam0 with h | h | h
    · exact Or.inl h
    · have h' : as.hints.ai_family = PF_INET := h
      exact Or.inr ⟨by simp [h', PF_INET, PF_UNSPEC], by simp [h', PF_INET]⟩
    · have h' : as.hints.ai_family = PF_INET6 := h
      exact Or.inr ⟨by simp [h', PF_INET6, PF_UNSPEC], by simp [h', PF_INET6]⟩
  obtain ⟨j, hloop⟩ := famLoopStart_eq env (numericBody env host)
    (numericBody_comm env host) (numericBody_hints env host)
    (initPorts env { as with count := 0 }) hfam
  rw [famFold_numeric, hbH, hscan] at hloop
  have hcnt : (({ initPorts env { as with count := 0 } with family_idx := j } : Async).count != 0)
      = false := by
    simp [initPorts_count]
  have hnum' : ({ initPorts env { as with count := 0 } with family_idx := j } : Async).hints.ai_flags.numerichost = true := by
    rw [show ({ initPorts env { as with count := 0 } with family_idx := j } : Async).hints
          = (initPorts env { as with count := 0 }).hints from rfl, hbH]
    exact hnum
  refine ⟨j, ?_⟩
  simp only [hstate] at hval hport hbhost hloop hcnt hnum'
  simp [runSteps, step, hstate, stepInit, hval, hport, hbhost, hloop, hcnt, hnum',
    EAI_FAIL]

theorem C4_numerichost_fail_witness :
    let as : Async :=
      getaddrinfo_async (some "printer") none (some { ai_flags := { numerichost := true } })
    ∃ j,
      runSteps wEnv 2 as {} = some
        ({ initPorts wEnv { as with count := 0 } with family_idx := j, state := .HALT },
         { gai_errno := EAI_FAIL, ar_count := 0, ar_addrinfo := [] }) := by
  intro as
  exact C4_numerichost_fail wEnv as {} "printer" rfl rfl rfl rfl rfl rfl

/-- **C6.** With no hostname (and a service name, else validation already
failed), the `INIT` state synthesizes one local address per requested
family — the wildcard `0.0.0.0`/`::` under the passive-listen flag, else
the loopback `127.0.0.1`/`::1` (see `localLiteral`/`localSynth`) — feeds
each through the builder, and halts: successfully transferring the
entries when any were produced, else with `EAI_NODATA`. -/
theorem C6_null_hostname (env : Env) (as : Async) (ar : AsyncRes)
    (hstate : as.state = .INIT)
    (hhost : as.hostname = none)
    (hval : initChecks { as with count := 0 } = none)
    (hport : portInvalid (initPorts env { as with count := 0 }) = false) :
    ∃ j,
      ((localSynth env (iterFamilySeq env as.hints.ai_family)
          (initPorts env { as with count := 0 })).count ≠ 0 →
        runSteps env 2 as ar = some
          ({ localSynth env (iterFamilySeq env as.hints.ai_family)
                (initPorts env { as with count := 0 }) with
              family_idx := j, state := .HALT, ais := [] },
           { ar with gai_errno := 0,
                     ar_count := (localSynth env (iterFamilySeq env as.hints.ai_family)
                        (initPorts env { as with count := 0 })).count,
                     ar_addrinfo := (localSynth env (iterFamilySeq env as.hints.ai_family)
                        (initPorts env { as with count := 0 })).ais })) ∧
      ((localSynth env (iterFamilySeq env as.hints.ai_family)
          (initPorts env { as with count := 0 })).count = 0 →
        runSteps env 2 as ar = some
          ({ localSynth env (iterFamilySeq env as.hints.ai_family)
                (initPorts env { as with count := 0 }) with
              family_idx := j, state := .HALT },
           { ar with gai_errno := EAI_NODATA, ar_count := 0, ar_addrinfo := [] })) := by
  have hbH : (initPorts env { as with count := 0 }).hints = as.hints :=
    initPorts_hints env { as with count := 0 }
  have hbhost : (initPorts env { as with count := 0 }).hostname = none := by
    rw [initPorts_hostname]; exact hhost
  have hfam0 := initChecks_none_family { as with count := 0 } hval
  have hfam : (initPorts env { as with count := 0 }).hints.ai_family = PF_UNSPEC ∨
      ((initPorts env { as with count := 0 }).hints.ai_family ≠ PF_UNSPEC ∧
       (initPorts env { as with count := 0 }).hints.ai_family ≠ -1) := by
    rw [hbH]
    rcases hfam0 with h | h | h
    · exact Or.inl h
    · have h' : as.hints.ai_family = PF_INET := h
      exact Or.inr ⟨by simp [h', PF_INET, PF_UNSPEC], by simp [h', PF_INET]⟩
    · have h' : as.hints.ai_family = PF_INET6 := h
      exact Or.inr ⟨by simp [h', PF_INET6, PF_UNSPEC], by simp [h', PF_INET6]⟩
  obtain ⟨j, hloop⟩ := famLoopStart_eq env (localBody env)
    (localBody_comm env) (localBody_hints env)
    (initPorts env { as with count := 0 }) hfam
  rw [famFold_local, hbH] at hloop
  refine ⟨j, ?_, ?_⟩
  · intro hc
    have hc' : (({ localSynth env (iterFamilySeq env as.hints.ai_family)
        (initPorts env { as with count := 0 }) with family_idx := j } : Async).count == 0)
        = false := by simpa using hc
    simp only [hstate] at hval hport hbhost hloop hc'
    simp [runSteps, step, hstate, stepInit, hval, hport, hbhost, hloop, hc']
  · intro hc
    have hc' : (({ localSynth env (iterFamilySeq env as.hints.ai_family)
        (initPorts env { as with count := 0 }) with family_idx := j } : Async).count == 0)
        = true := by simpa using hc
    simp only [hstate] at hval hport hbhost hloop hc'
    simp [runSteps, step, hstate, stepInit, hval, hport, hbhost, hloop, hc',
      EAI_NODATA]

theorem C6_null_hostname_witness :
    let as : Async :=
      getaddrinfo_async none (some "smtp") (some { ai_flags := { passive := true } })
    ∃ j,
      ((localSynth wEnv (iterFamilySeq wEnv as.hints.ai_family)
          (initPorts wEnv { as with count := 0 })).count ≠ 0 →
        runSteps wEnv 2 as {} = some
          ({ localSynth wEnv (iterFamilySeq wEnv as.hints.ai_family)
                (initPorts wEnv { as with count := 0 }) with
              family_idx := j, state := .HALT, ais := [] },
           { gai_errno := 0,
             ar_count := (localSynth wEnv (iterFamilySeq wEnv as.hints.ai_family)
                (initPorts wEnv { as with count := 0 })).count,
             ar_addrinfo := (localSynth wEnv (iterFamilySeq wEnv as.hints.ai_family)
                (initPorts wEnv { as with count := 0 })).ais })) ∧
      ((localSynth wEnv (iterFamilySeq wEnv as.hints.ai_family)
          (initPorts wEnv { as with count := 0 })).count = 0 →
        runSteps wEnv 2 as {} = some
          ({ localSynth wEnv (iterFamilySeq wEnv as.hints.ai_family)
                (initPorts wEnv { as with count := 0 }) with
              family_idx := j, state := .HALT },
           { gai_errno := EAI_NODATA, ar_count := 0, ar_addrinfo := [] })) := by
  intro as
  exact C6_null_hostname wEnv as {} rfl rfl rfl rfl

theorem C8_two_A_records_witness :
    let as : Async :=
      { state := .SUBQUERY, hostname := some "x", servname := none,
        hints := { ai_flags := { canonname := true }, ai_family := PF_INET,
                   ai_socktype := SOCK_STREAM } }
    (addrinfo_from_pkt as c8pkt).ais
      = as.ais ++ [c8Entry as "x.example.com." [1, 2, 3, 4], c8Entry as "x.example.com." [5, 6, 7, 8]] ∧
    (as.hints.ai_flags.canonname = true →
      (c8Entry as "x.example.com." [1, 2, 3, 4]).ai_canonname = some (stripDot "x.example.com.") ∧
      (c8Entry as "x.example.com." [5, 6, 7, 8]).ai_canonname = some (stripDot "x.example.com.")) ∧
    (as.hints.ai_flags.canonname = false → as.hints.ai_flags.fqdn = false →
      (c8Entry as "x.example.com." [1, 2, 3, 4]).ai_canonname = none ∧
      (c8Entry as "x.example.com." [5, 6, 7, 8]).ai_canonname = none) := by
  intro as
  exact C8_two_A_records as "x.example.com." [1, 2, 3, 4] [5, 6, 7, 8] rfl rfl (by decide)

end Asr
